import Mathlib

/-!
Verification of the BlueprintAI ML service (`src/app.py`, `src/test_api.py`)
against its natural-language specification.

The code under `src/` is the echo-stub revision of the service: the HTTP
surface is FastAPI, images are handled through PIL, and the inpainting
pipeline itself is not present (the `/inpaint/` handler re-encodes the
uploaded image unchanged).  The definitions below are a shallow embedding of
that code: byte strings are modelled by their observable behaviour (their
length and what `PIL.Image.open(...).convert("RGB")` does on them), Python
exception flow is modelled with `Except`, and a JSON response body is an
explicit inductive value.  Components that exist only in revisions of the
repository not present under `src/` (the model lifecycle and the real
inpainting pipeline) are modelled from the spec and are marked as such in
their doc comments.
-/

namespace BlueprintAI

/-- HTTP methods that can reach the application.  `PATCH` stands in for any
method outside the four registered on the catch-all route; `HEAD` and the
CORS-preflight `OPTIONS` are consumed by the framework and are not modelled. -/
inductive Method where
  | GET
  | POST
  | PUT
  | DELETE
  | PATCH
  deriving DecidableEq, Repr

/-- An in-memory PIL image: a width, a height and an RGB pixel function
(`img.putpixel` / `img.getpixel` coordinates, values `0..255`). -/
structure PILImage where
  width : Nat
  height : Nat
  pix : Nat → Nat → Nat × Nat × Nat

/-- The observable outcome of `PIL.Image.open(io.BytesIO(content)).convert("RGB")`
on a given byte string: a decoded RGB image, an `UnidentifiedImageError`, or
some other exception (both with their message). -/
inductive PILDecode where
  | ok (img : PILImage)
  | unidentified (msg : String)
  | otherError (msg : String)

/-- A byte string, modelled by the two observations the handlers make of it:
its length (`len(content)`) and what PIL's decoder does on it. -/
structure Bytes where
  len : Nat
  decode : PILDecode

/-- Python exceptions that flow through the handlers: FastAPI's
`HTTPException(status_code, detail)`, PIL's `UnidentifiedImageError`, and any
other exception carrying a message. -/
inductive PyErr where
  | httpExc (status : Nat) (detail : String)
  | unidentifiedImageError (msg : String)
  | otherExc (msg : String)

/-- Python's `str(e)` on the exceptions above.  Starlette's `HTTPException`
renders as `"<status>: <detail>"`; the others render as their message. -/
def pyStr : PyErr → String
  | .httpExc s d => toString s ++ ": " ++ d
  | .unidentifiedImageError m => m
  | .otherExc m => m

/-- JSON values appearing in response bodies.  `b64jpeg img` stands for the
string obtained by JPEG-encoding `img` with `img.save(..., format="JPEG")`
and base64-encoding the resulting bytes (JPEG encoding preserves the image
dimensions). -/
inductive JVal where
  | null
  | bool (b : Bool)
  | num (n : Int)
  | str (s : String)
  | arr (xs : List JVal)
  | obj (kvs : List (String × JVal))
  | b64jpeg (img : PILImage)

/-- Whether a JSON object body has a field with the given key. -/
def JVal.hasKey : JVal → String → Bool
  | .obj kvs, k => kvs.any (fun kv => kv.1 == k)
  | _, _ => false

/-- Look a key up in a JSON object body. -/
def JVal.getKey : JVal → String → Option JVal
  | .obj kvs, k => List.lookup k kvs
  | _, _ => none

/-- An HTTP response: a status code and a JSON body. -/
structure Response where
  status : Nat
  body : JVal

/-- The dimensions of the image carried in a response's `image` field, when
there is one. -/
def Response.imageDims (r : Response) : Option (Nat × Nat) :=
  match r.body.getKey "image" with
  | some (.b64jpeg img) => some (img.width, img.height)
  | _ => none

/-! ## The `/` root endpoint (src/app.py lines 43-54) -/

/-- Handler of `GET /`: static service metadata; the status string is the
literal `"online"` unconditionally in this revision. -/
def root : Response :=
  ⟨200, .obj [
    ("message", .str "BlueprintAI Inpainting API"),
    ("endpoints", .obj [
      ("POST /inpaint/", .str "Submit an image for inpainting with specified theme"),
      ("POST /api/predict", .str "Hugging Face Spaces compatible endpoint")]),
    ("status", .str "online")]⟩

/-! ## The `POST /inpaint/` endpoint (src/app.py lines 56-101)

The Python handler wraps its whole body in `try: ... except
UnidentifiedImageError: raise HTTPException(400, ...) except Exception as e:
raise HTTPException(500, f"Error processing image: {str(e)}")`.  Because
`HTTPException` is itself an `Exception`, the explicit
`raise HTTPException(400, ...)` statements inside the `try` block are caught
by the outer `except Exception` clause and re-raised with status 500. -/

/-- The body of the outer `try` block of the `inpaint` handler: check for
empty content, try to decode (the inner `try`/`except` turns decoder
exceptions into 400 `HTTPException`s), then re-encode the same image as JPEG
and return it base64-encoded. -/
def inpaintBody (content : Bytes) : Except PyErr JVal :=
  if content.len = 0 then
    .error (.httpExc 400 "Empty image file")
  else
    match content.decode with
    | .ok img => .ok (.obj [("image", .b64jpeg img)])
    | .unidentified m => .error (.httpExc 400 ("Invalid image format: " ++ m))
    | .otherError m => .error (.httpExc 400 ("Invalid image file: " ++ m))

/-- Handler of `POST /inpaint/`.  The two form fields are read but, in this
revision, only logged.  The outer `except` clauses convert any exception
escaping the `try` body into the response FastAPI builds for the
`HTTPException` they raise; the `UnidentifiedImageError` clause is dead code
(the inner handler already converted those), so every exception, including
the 400 `HTTPException`s raised inside the `try` body, lands in the generic
clause and becomes a 500. -/
def inpaint (content : Bytes) (theme_description theme_color : String) : Response :=
  match inpaintBody content with
  | .ok body => ⟨200, body⟩
  | .error (.unidentifiedImageError m) =>
    ⟨400, .obj [("detail", .str ("Invalid image file: " ++ m))]⟩
  | .error e =>
    ⟨500, .obj [("detail", .str ("Error processing image: " ++ pyStr e))]⟩

/-! ## The `POST /test` endpoint (src/app.py lines 104-108) -/

/-- Handler of `POST /test`: echoes the JSON body. -/
def test (data : JVal) : Response :=
  ⟨200, .obj [("received", data), ("success", .bool true)]⟩

/-! ## The `POST /api/predict` endpoint (src/app.py lines 111-153) -/

/-- A Python value arriving as an element of the `data` list of a
`PredictRequest` (an arbitrary JSON value). -/
inductive PyVal where
  | vnull
  | vbool (b : Bool)
  | vnum (n : Int)
  | vstr (s : String)
  | varr (xs : List PyVal)
  | vobj (kvs : List (String × PyVal))

/-- Python's `len(v)`: defined on strings, lists and dicts, a `TypeError`
on the other JSON values. -/
def pyLen : PyVal → Except PyErr Nat
  | .vstr s => .ok s.length
  | .varr xs => .ok xs.length
  | .vobj kvs => .ok kvs.length
  | _ => .error (.otherExc "object of type has no len()")

/-- `base64.b64decode(v)`.  On a string it is the fixed base64 algorithm,
represented by the oracle `O` (its failures are `binascii.Error`s); on any
other JSON value it raises a `TypeError`. -/
def pyB64decode (O : String → Except String Bytes) : PyVal → Except PyErr Bytes
  | .vstr s =>
    match O s with
    | .ok content => .ok content
    | .error m => .error (.otherExc m)
  | _ => .error (.otherExc "argument should be a bytes-like object or ASCII string, not the given type")

/-- The inner `try` block of the `predict` handler: base64-decode the first
data element, then open it with PIL. -/
def predictInner (O : String → Except String Bytes) (v : PyVal) : Except PyErr PILImage :=
  match pyB64decode O v with
  | .error e => .error e
  | .ok content =>
    match content.decode with
    | .ok img => .ok img
    | .unidentified m => .error (.unidentifiedImageError m)
    | .otherError m => .error (.otherExc m)

/-- The outer `try` block of the `predict` handler.  `len(request.data)` is
checked first; then `logger.info(f"... {len(image_b64)} ...")` applies
`len` to the first element outside the inner `try` (a `TypeError` there
escapes to the outer `except`); the inner `try` turns any decoding failure
into a 200 body with an `error` field; on success the handler re-encodes the
image as JPEG and returns it in a `data` list. -/
def predictBody (O : String → Except String Bytes) (data : List PyVal) : Except PyErr JVal :=
  if data.length < 3 then
    .ok (.obj [("error", .str "Missing required data")])
  else
    match pyLen (data.getD 0 .vnull) with
    | .error e => .error e
    | .ok _ =>
      match predictInner O (data.getD 0 .vnull) with
      | .error e => .ok (.obj [("error", .str ("Invalid image data: " ++ pyStr e))])
      | .ok img => .ok (.obj [("data", .arr [.b64jpeg img])])

/-- Handler of `POST /api/predict` on a validated `PredictRequest`: the outer
`except Exception` turns any escaping exception into a 200 body with an
`error` field, so the handler never raises an HTTP error status. -/
def predict (O : String → Except String Bytes) (data : List PyVal) : Response :=
  match predictBody O data with
  | .ok body => ⟨200, body⟩
  | .error e => ⟨200, .obj [("error", .str ("Error processing request: " ++ pyStr e))]⟩

/-! ## The catch-all route and routing (src/app.py lines 156-199) -/

/-- Substring containment, Python's `needle in hay`. -/
def strContains (hay needle : String) : Bool :=
  (List.range (hay.length + 1)).any (fun i => needle.isPrefixOf (hay.drop i))

/-- The observable outcome of `await request.body()` (and of the subsequent
`await request.json()`): the body size, the `content-type` header, and the
parsed JSON body when parsing succeeds; or an exception message. -/
inductive BodyRead where
  | ok (bodySize : Nat) (contentType : String) (jsonBody : Option JVal)
  | err (msg : String)

/-- The parsed facets of an incoming request; each handler reads only the
facet its route declares (upload and form fields for `/inpaint/`, the `data`
list for `/api/predict`, the dict body for `/test`, the raw body for the
catch-all). -/
structure ReqData where
  content : Bytes
  theme_description : String
  theme_color : String
  predictData : List PyVal
  jsonBody : JVal
  bodyRead : BodyRead

/-- The render of a `Method` used in the route table. -/
def methodStr : Method → String
  | .GET => "GET"
  | .POST => "POST"
  | .PUT => "PUT"
  | .DELETE => "DELETE"
  | .PATCH => "PATCH"

/-- The route table of the application object (`app.routes`): FastAPI's
default documentation routes followed by the user routes in decoration
order.  The catch-all is decorated at line 156, before `/debug` (line 202)
and `/test-image` (line 214). -/
def routesTable : List (String × List Method) :=
  [("/openapi.json", [.GET]),
   ("/docs", [.GET]),
   ("/docs/oauth2-redirect", [.GET]),
   ("/redoc", [.GET]),
   ("/", [.GET]),
   ("/inpaint/", [.POST]),
   ("/test", [.POST]),
   ("/api/predict", [.POST]),
   ("/\x7bpath_name:path\x7d", [.GET, .POST, .PUT, .DELETE]),
   ("/debug", [.GET]),
   ("/test-image", [.GET])]

/-- Render of `[{"path": route.path, "methods": route.methods} for route in app.routes]`. -/
def routesJson (rs : List (String × List Method)) : JVal :=
  .arr (rs.map (fun p => .obj [
    ("path", .str p.1),
    ("methods", .arr (p.2.map (fun m => .str (methodStr m))))]))

/-- Modelled from the spec: the process-wide immutable inference
configuration (spec section 3), resolved from environment variables with
defaults at startup; missing from `src/`. -/
structure InferenceConfig where
  modelId : String
  cacheDir : String
  steps : Nat
  guidanceScale : Rat
  localFilesOnly : Bool

/-- A binary mask raster: white pixels are eligible for regeneration. -/
structure Mask where
  width : Nat
  height : Nat
  white : Nat → Nat → Bool

/-- One invocation of the black-box inference capability
`generate(prompt, image, mask, steps, guidance_scale)`. -/
structure InferenceCall where
  prompt : String
  image : PILImage
  mask : Mask
  steps : Nat
  guidance : Rat

/-- Modelled from the spec: the singleton handle wrapping the loaded
pipeline, used read-only by request handlers; missing from `src/`. -/
structure ModelHandle where
  gen : InferenceCall → PILImage

/-- Process-wide state visible across requests: the application's route
table, and the static configuration and singleton model handle that the spec
names (the stub revision under `src/` declares neither, and no handler
writes any of them). -/
structure AppState where
  routes : List (String × List Method)
  config : InferenceConfig
  modelHandle : Option ModelHandle

/-- Handler of the catch-all route `/{path_name:path}` (registered for GET,
POST, PUT and DELETE).  GET echoes the path and the route table; POST reads
the body and echoes the path with the JSON body (when the content type
mentions JSON and parsing succeeds) or the body size, or an `error` field if
reading the body raises; PUT and DELETE fall through both `if` statements,
so the function returns `None`, which FastAPI serialises as a 200 response
with body `null`. -/
def catch_all (s : AppState) (m : Method) (path_name : String) (r : ReqData) : Response :=
  if m = .GET then
    ⟨200, .obj [
      ("message", .str "Route not found"),
      ("requested_path", .str path_name),
      ("available_routes", routesJson s.routes)]⟩
  else if m = .POST then
    match r.bodyRead with
    | .ok bodySize contentType jsonBody =>
      if strContains contentType "application/json" then
        match jsonBody with
        | some j =>
          ⟨200, .obj [
            ("message", .str "Route not found"),
            ("requested_path", .str path_name),
            ("content_type", .str contentType),
            ("json_body", j)]⟩
        | none =>
          ⟨200, .obj [
            ("message", .str "Route not found"),
            ("requested_path", .str path_name),
            ("content_type", .str contentType),
            ("body_size", .num (Int.ofNat bodySize))]⟩
      else
        ⟨200, .obj [
          ("message", .str "Route not found"),
          ("requested_path", .str path_name),
          ("content_type", .str contentType),
          ("body_size", .num (Int.ofNat bodySize))]⟩
    | .err msg =>
      ⟨200, .obj [
        ("message", .str "Route not found"),
        ("requested_path", .str path_name),
        ("error", .str msg)]⟩
  else
    ⟨200, .null⟩

/-- FastAPI's generated documentation endpoints, modelled opaquely; only
their positions in the route table matter for routing. -/
def docsResponse (which : String) : Response :=
  ⟨200, .obj [("docs", .str which)]⟩

/-- One routing-plus-handling step of the application, following Starlette's
routing: routes are tried in registration order and the first full
(path-and-method) match wins, so the catch-all `/{path_name:path}` route
captures every GET/POST/PUT/DELETE request not matched earlier — including
`GET /debug` and `GET /test-image`, whose routes are registered after it.
A path that only partially matches (method not allowed anywhere) yields 405.
The returned state is the handler's view of the process state after the
request; no handler writes it. -/
def app_step (O : String → Except String Bytes) (s : AppState)
    (m : Method) (path : String) (r : ReqData) : Response × AppState :=
  if path = "/openapi.json" ∧ m = .GET then (docsResponse "openapi", s)
  else if path = "/docs" ∧ m = .GET then (docsResponse "swagger-ui", s)
  else if path = "/docs/oauth2-redirect" ∧ m = .GET then (docsResponse "oauth2-redirect", s)
  else if path = "/redoc" ∧ m = .GET then (docsResponse "redoc", s)
  else if path = "/" ∧ m = .GET then (root, s)
  else if path = "/inpaint/" ∧ m = .POST then
    (inpaint r.content r.theme_description r.theme_color, s)
  else if path = "/test" ∧ m = .POST then (test r.jsonBody, s)
  else if path = "/api/predict" ∧ m = .POST then (predict O r.predictData, s)
  else if m = .GET ∨ m = .POST ∨ m = .PUT ∨ m = .DELETE then
    (catch_all s m (path.drop 1) r, s)
  else (⟨405, .obj [("detail", .str "Method Not Allowed")]⟩, s)

/-- The response of one request. -/
def dispatch (O : String → Except String Bytes) (s : AppState)
    (m : Method) (path : String) (r : ReqData) : Response :=
  (app_step O s m path r).1

/-! ## The `GET /test-image` handler (src/app.py lines 214-234)

The handler exists but its route is registered after the catch-all and is
therefore unreachable through routing. -/

/-- The gradient image built by the `test_image` handler: `Image.new('RGB',
(300, 200))` followed by `img.putpixel((x, y), (int(255*x/width),
int(255*y/height), 100))` over every pixel.  `int()` truncates the
non-negative float quotient, which here equals Nat floor division: the
rationals `17x/20` and `51y/40` lie at least `1/40` away from any integer
they do not equal, far beyond double-rounding error. -/
def test_image_img : PILImage :=
  { width := 300
    height := 200
    pix := fun x y => (255 * x / 300, 255 * y / 200, 100) }

/-- Handler of `GET /test-image`: the gradient image re-encoded as JPEG and
base64-encoded, under an `image` key. -/
def test_image : Response :=
  ⟨200, .obj [("image", .b64jpeg test_image_img)]⟩

/-! ## Spec-modelled components

The repository's model-bearing revision is not under `src/` (the code there
is the echo stub); the following definitions are modelled from the spec. -/

/-- Modelled from the spec: the fixed mask, a full black 512 by 512 canvas
except a filled circle inscribed in its middle 50 percent (spec section 3
and section 4.2 step 3); missing from `src/`. -/
def circle_mask : Mask :=
  { width := 512
    height := 512
    white := fun x y =>
      decide ((((x : Int) - 256) ^ 2 + ((y : Int) - 256) ^ 2) ≤ 128 ^ 2) }

/-- Modelled from the spec: a resize to the given dimensions (spec section
4.2 steps 2 and 6; only the output dimensions matter to the claims);
missing from `src/`. -/
def resizeImage (img : PILImage) (w h : Nat) : PILImage :=
  { width := w
    height := h
    pix := fun x y => img.pix (x * img.width / w) (y * img.height / h) }

/-- Modelled from the spec: the request-to-inference pipeline of the
model-bearing revision (spec section 4.2 steps 2 to 6): resize the decoded
image to 512 by 512, compose the prompt from the two theme fields with the
fixed template, invoke the inference capability with the fixed circular
mask and the configured steps and guidance scale, and resize the output
back to the original dimensions if they differed from 512 by 512.  Returns
the call handed to the capability together with the final image; missing
from `src/`. -/
def inpaint_pipeline (cfg : InferenceConfig) (gen : InferenceCall → PILImage)
    (img : PILImage) (theme_description theme_color : String) :
    InferenceCall × PILImage :=
  let resized := resizeImage img 512 512
  let prompt := theme_description ++ " with " ++ theme_color ++
    " color, high quality, detailed"
  let call : InferenceCall :=
    ⟨prompt, resized, circle_mask, cfg.steps, cfg.guidanceScale⟩
  let out := gen call
  let final :=
    if img.width = 512 ∧ img.height = 512 then out
    else resizeImage out img.width img.height
  (call, final)

/-- Modelled from the spec: the root endpoint of the model-bearing revision
reports an online status string when the handle is present and a degraded
one when the startup load failed (spec sections 4.1, 4.4 and 8); missing
from `src/`. -/
def root_full (h : Option ModelHandle) : Response :=
  ⟨200, .obj [
    ("message", .str "BlueprintAI Inpainting API"),
    ("status", .str (if h.isSome then "online" else "degraded"))]⟩

/-- Modelled from the spec: the inpaint endpoint of the model-bearing
revision; an absent handle yields a service-unavailable signal, a malformed
image a bad-request signal, and otherwise the pipeline runs and the result
is returned with the prompt used and the mask type (spec sections 4.2, 6
and 7); missing from `src/`. -/
def inpaint_full (h : Option ModelHandle) (cfg : InferenceConfig)
    (content : Bytes) (theme_description theme_color : String) : Response :=
  match h with
  | none => ⟨503, .obj [("detail", .str "Model not available")]⟩
  | some mh =>
    if content.len = 0 then
      ⟨400, .obj [("detail", .str "Empty image file")]⟩
    else
      match content.decode with
      | .ok img =>
        let r := inpaint_pipeline cfg mh.gen img theme_description theme_color
        ⟨200, .obj [
          ("image", .b64jpeg r.2),
          ("prompt_used", .str r.1.prompt),
          ("mask_type", .str "center_circle")]⟩
      | .unidentified m =>
        ⟨400, .obj [("detail", .str ("Invalid image format: " ++ m))]⟩
      | .otherError m =>
        ⟨400, .obj [("detail", .str ("Invalid image file: " ++ m))]⟩

/-- The list of paths declared by a route of their own (FastAPI's default
documentation routes and the decorated routes), i.e. the paths whose
requests can be matched before the catch-all or whose routes exist after
it. -/
def declaredPaths : List String :=
  ["/openapi.json", "/docs", "/docs/oauth2-redirect", "/redoc",
   "/", "/inpaint/", "/test", "/api/predict", "/debug", "/test-image"]

/-! ## Concrete fixtures used by witnesses and counterexamples -/

/-- A zero-length upload (PIL would also fail to identify it). -/
def emptyBytes : Bytes := ⟨0, .unidentified "cannot identify image file"⟩

/-- Four bytes that PIL cannot identify as an image. -/
def garbageBytes : Bytes := ⟨4, .unidentified "cannot identify image file <_io.BytesIO object>"⟩

/-- A small decoded test image. -/
def okImg : PILImage := ⟨4, 3, fun _ _ => (9, 9, 9)⟩

/-- Bytes that decode to `okImg`. -/
def okBytes : Bytes := ⟨120, .ok okImg⟩

/-- A non-square decoded image. -/
def tallImg : PILImage := ⟨2, 5, fun _ _ => (0, 0, 0)⟩

/-- Bytes that decode to `tallImg`. -/
def tallBytes : Bytes := ⟨12, .ok tallImg⟩

/-- A model handle whose capability always returns a 512 by 512 image. -/
def mh512 : ModelHandle := ⟨fun _ => ⟨512, 512, fun _ _ => (0, 0, 0)⟩⟩

/-- A concrete configuration. -/
def cfg0 : InferenceConfig :=
  ⟨"runwayml/stable-diffusion-inpainting", "/tmp/hf_cache", 20, (15 : Rat) / 2, false⟩

/-- A concrete process state. -/
def s0 : AppState := ⟨routesTable, cfg0, none⟩

/-- A concrete request payload. -/
def r0 : ReqData := ⟨emptyBytes, "", "", [], .null, .ok 0 "" none⟩

/-- A concrete base64 oracle that always fails. -/
def O0 : String → Except String Bytes := fun _ => .error "Invalid base64-encoded string"

/-! ## Claim theorems -/

/-- A `data` list shorter than three elements makes `predict` answer the
fixed error body. -/
theorem predictBody_short (O : String → Except String Bytes) {data : List PyVal}
    (h : data.length < 3) :
    predictBody O data = .ok (.obj [("error", .str "Missing required data")]) := by
  simp [predictBody, h]

/-- Every non-exceptional value computed by the `predict` handler body is
either an error object or a singleton `data` list holding one image. -/
theorem predictBody_ok_shape (O : String → Except String Bytes) (data : List PyVal)
    (j : JVal) (h : predictBody O data = .ok j) :
    j.hasKey "error" = true
    ∨ ∃ img : PILImage, j = .obj [("data", .arr [.b64jpeg img])] := by
  unfold predictBody at h
  split at h
  · injection h with h
    subst h
    left; rfl
  · split at h
    · simp at h
    · split at h
      · injection h with h
        subst h
        left; rfl
      · injection h with h
        subst h
        right; exact ⟨_, rfl⟩

/-- On every unmatched path, routing reaches the catch-all route for the
four methods it registers and answers 405 for any other method. -/
theorem app_step_unmatched (O : String → Except String Bytes) (s : AppState)
    (m : Method) (path : String) (r : ReqData) (h : path ∉ declaredPaths) :
    app_step O s m path r =
      if m = .GET ∨ m = .POST ∨ m = .PUT ∨ m = .DELETE then
        (catch_all s m (path.drop 1) r, s)
      else (⟨405, .obj [("detail", .str "Method Not Allowed")]⟩, s) := by
  simp only [declaredPaths, List.mem_cons, List.not_mem_nil, or_false, not_or] at h
  obtain ⟨h1, h2, h3, h4, h5, h6, h7, h8, -, -⟩ := h
  simp only [app_step, h1, h2, h3, h4, h5, h6, h7, h8, false_and, if_false]

/-- With the spec-modelled 512 by 512 capability, the pipeline's final image
has the input image's dimensions (resize to 512 by 512 followed by the
conditional resize-back). -/
theorem inpaint_pipeline_dims (cfg : InferenceConfig) (gen : InferenceCall → PILImage)
    (img : PILImage) (theme_description theme_color : String)
    (hgen : ∀ call : InferenceCall, (gen call).width = 512 ∧ (gen call).height = 512) :
    (inpaint_pipeline cfg gen img theme_description theme_color).2.width = img.width
    ∧ (inpaint_pipeline cfg gen img theme_description theme_color).2.height = img.height := by
  by_cases hsq : img.width = 512 ∧ img.height = 512
  · simp only [inpaint_pipeline, if_pos hsq]
    exact ⟨(hgen _).1.trans hsq.1.symm, (hgen _).2.trans hsq.2.symm⟩
  · simp [inpaint_pipeline, if_neg hsq, resizeImage]

/-- C1: for every request to the inpaint endpoint that reaches inference,
the prompt string passed to the inference capability is exactly
`"<theme_description> with <theme_color> color, high quality, detailed"`,
for any input strings, including empty ones.  (Settled against the pipeline
modelled from the spec: the inference-bearing revision is not under
`src/`.) -/
theorem c1_inference_prompt_exact (cfg : InferenceConfig)
    (gen : InferenceCall → PILImage) (img : PILImage)
    (theme_description theme_color : String) :
    (inpaint_pipeline cfg gen img theme_description theme_color).1.prompt
      = theme_description ++ " with " ++ theme_color ++
        " color, high quality, detailed" := rfl

/-- C2 is false on the code: a zero-length upload and non-image bytes both
produce a 500 response, not a 400-class one, because the handler's outer
`except Exception` clause catches the 400 `HTTPException`s raised inside
the `try` body and re-raises them with status 500. -/
theorem c2_bad_image_bytes_yield_500 :
    (inpaint emptyBytes "modern" "blue").status = 500
    ∧ (inpaint emptyBytes "modern" "blue").body.getKey "detail"
        = some (.str "Error processing image: 400: Empty image file")
    ∧ (inpaint garbageBytes "modern" "blue").status = 500
    ∧ (inpaint garbageBytes "modern" "blue").body.getKey "detail"
        = some (.str ("Error processing image: 400: Invalid image format: "
            ++ "cannot identify image file <_io.BytesIO object>")) :=
  ⟨rfl, rfl, rfl, rfl⟩

/-- C4 is false on the code: a successful inpaint response carries only an
`image` field; the `prompt_used` and `mask_type` fields promised by the
claim (and read by the repository's own `test_api.py`) are absent. -/
theorem c4_success_body_lacks_promised_fields :
    inpaint okBytes "modern" "blue" = ⟨200, .obj [("image", .b64jpeg okImg)]⟩
    ∧ (inpaint okBytes "modern" "blue").body.hasKey "image" = true
    ∧ (inpaint okBytes "modern" "blue").body.hasKey "prompt_used" = false
    ∧ (inpaint okBytes "modern" "blue").body.hasKey "mask_type" = false :=
  ⟨rfl, rfl, rfl, rfl⟩

/-- C5: when the model handle is absent, every request to the inpaint
endpoint gets a 503 response and the root endpoint reports the status
string `"degraded"` rather than `"online"`.  (Settled against the
endpoints modelled from the spec: the model lifecycle is not under
`src/`.) -/
theorem c5_degraded_when_model_absent (cfg : InferenceConfig)
    (content : Bytes) (theme_description theme_color : String) :
    (inpaint_full none cfg content theme_description theme_color).status = 503
    ∧ (root_full none).body.getKey "status" = some (.str "degraded")
    ∧ (root_full none).body.getKey "status" ≠ some (.str "online") := by
  refine ⟨rfl, rfl, ?_⟩
  intro h
  simp [root_full, JVal.getKey, List.lookup] at h

/-- C7 is false as stated: a PATCH request to an unmatched path is not
accepted by the catch-all route at all (the route is registered only for
GET, POST, PUT and DELETE, so routing answers 405), and a PUT request is
answered with a 200 `null` body that echoes nothing, not even the requested
path. -/
theorem c7_counterexample :
    (dispatch O0 s0 .PATCH "/nope" r0).status = 405
    ∧ dispatch O0 s0 .PUT "/nope" r0 = ⟨200, .null⟩
    ∧ (dispatch O0 s0 .PUT "/nope" r0).body.hasKey "requested_path" = false :=
  ⟨rfl, rfl, rfl⟩

/-- C10 is false at the HTTP level: the catch-all route is registered
before `/test-image`, and Starlette takes the first full match, so
`GET /test-image` is answered by the catch-all's Route-not-found echo with
no `image` field.  The `test_image` handler itself, were it reachable,
would deterministically return the base64 JPEG of the fixed 300 by 200
gradient whose pixel `(x, y)` is
`(floor(255*x/300), floor(255*y/200), 100)`. -/
theorem c10_test_image_route_shadowed :
    test_image = ⟨200, .obj [("image", .b64jpeg test_image_img)]⟩
    ∧ test_image_img.width = 300 ∧ test_image_img.height = 200
    ∧ test_image_img.pix 30 100 = (25, 127, 100)
    ∧ test_image_img.pix 299 199 = (254, 253, 100)
    ∧ (dispatch O0 s0 .GET "/test-image" r0).body.hasKey "image" = false
    ∧ (dispatch O0 s0 .GET "/test-image" r0).body.getKey "message"
        = some (.str "Route not found")
    ∧ (dispatch O0 s0 .GET "/test-image" r0).body.getKey "requested_path"
        = some (.str "test-image") :=
  ⟨rfl, rfl, rfl, rfl, rfl, rfl, rfl, rfl⟩

/-- C3: for every validated request to `POST /api/predict`, the handler
returns HTTP 200; the body is either an object with an `error` field (any
failure, in particular a `data` list shorter than three elements) or the
object `{"data": [image_b64]}` on success. -/
theorem c3_predict_always_http_200 (O : String → Except String Bytes)
    (data : List PyVal) :
    (predict O data).status = 200
    ∧ ((predict O data).body.hasKey "error" = true
        ∨ ∃ img : PILImage,
            (predict O data).body = .obj [("data", .arr [.b64jpeg img])])
    ∧ (data.length < 3 → (predict O data).body.hasKey "error" = true) := by
  unfold predict
  cases hb : predictBody O data with
  | error e => exact ⟨rfl, Or.inl rfl, fun _ => rfl⟩
  | ok j =>
    refine ⟨rfl, predictBody_ok_shape O data j hb, ?_⟩
    intro hlen
    rw [predictBody_short O hlen] at hb
    injection hb with hb
    subst hb
    rfl

/-- Witness for C3 at a concrete empty `data` list. -/
theorem c3_predict_always_http_200_witness :
    (predict O0 []).status = 200
    ∧ (predict O0 []).body.hasKey "error" = true :=
  ⟨(c3_predict_always_http_200 O0 []).1,
   (c3_predict_always_http_200 O0 []).2.2 (by decide)⟩

/-- C6: for every decodable upload, including non-square ones, the image in
the inpaint response has the input image's dimensions.  In the revision
under `src/` the response echoes the decoded image itself, so the
dimensions are trivially preserved; in the spec-modelled model-bearing
revision the resize to 512 by 512 followed by the resize-back restores
them, provided the capability returns 512 by 512 outputs. -/
theorem c6_response_dims_equal_input (content : Bytes) (img : PILImage)
    (theme_description theme_color : String)
    (hlen : content.len ≠ 0) (hdec : content.decode = .ok img) :
    ((inpaint content theme_description theme_color).status = 200
      ∧ (inpaint content theme_description theme_color).imageDims
          = some (img.width, img.height))
    ∧ ∀ (cfg : InferenceConfig) (mh : ModelHandle),
        (∀ call : InferenceCall,
          (mh.gen call).width = 512 ∧ (mh.gen call).height = 512) →
        (inpaint_full (some mh) cfg content theme_description theme_color).imageDims
          = some (img.width, img.height) := by
  constructor
  · unfold inpaint inpaintBody
    rw [if_neg hlen, hdec]
    exact ⟨rfl, rfl⟩
  · intro cfg mh hgen
    have hd := inpaint_pipeline_dims cfg mh.gen img theme_description theme_color hgen
    simp only [inpaint_full, if_neg hlen, hdec]
    show some ((inpaint_pipeline cfg mh.gen img theme_description theme_color).2.width,
               (inpaint_pipeline cfg mh.gen img theme_description theme_color).2.height)
      = some (img.width, img.height)
    rw [hd.1, hd.2]

/-- Witness for C6 at a concrete non-square 2 by 5 image. -/
theorem c6_response_dims_equal_input_witness :
    tallBytes.len ≠ 0
    ∧ tallBytes.decode = .ok tallImg
    ∧ ((inpaint tallBytes "forest landscape" "green").status = 200
       ∧ (inpaint tallBytes "forest landscape" "green").imageDims = some (2, 5))
    ∧ (inpaint_full (some mh512) cfg0 tallBytes "forest landscape" "green").imageDims
        = some (2, 5) := by
  have h := c6_response_dims_equal_input tallBytes tallImg
    "forest landscape" "green" (by decide) rfl
  exact ⟨by decide, rfl, h.1, h.2 cfg0 mh512 (fun _ => ⟨rfl, rfl⟩)⟩

/-- C7 amended: the catch-all route is registered only for GET, POST, PUT
and DELETE.  On an unmatched path, GET is answered 200 echoing the
requested path (with the route table), POST is answered 200 echoing the
path together with the JSON body or the body size (or an error field if
reading the body fails), PUT and DELETE are answered 200 with a `null`
body that echoes nothing, and any other method is answered 405. -/
theorem c7_catch_all_amended (O : String → Except String Bytes) (s : AppState)
    (path : String) (r : ReqData) (h : path ∉ declaredPaths) :
    ((dispatch O s .GET path r).status = 200
      ∧ (dispatch O s .GET path r).body.getKey "requested_path"
          = some (.str (path.drop 1)))
    ∧ ((dispatch O s .POST path r).status = 200
      ∧ (dispatch O s .POST path r).body.hasKey "requested_path" = true)
    ∧ dispatch O s .PUT path r = ⟨200, .null⟩
    ∧ dispatch O s .DELETE path r = ⟨200, .null⟩
    ∧ (dispatch O s .PATCH path r).status = 405 := by
  have hG := app_step_unmatched O s .GET path r h
  have hP := app_step_unmatched O s .POST path r h
  have hU := app_step_unmatched O s .PUT path r h
  have hD := app_step_unmatched O s .DELETE path r h
  have hX := app_step_unmatched O s .PATCH path r h
  have hpost : (catch_all s .POST (path.drop 1) r).status = 200
      ∧ (catch_all s .POST (path.drop 1) r).body.hasKey "requested_path" = true := by
    unfold catch_all
    cases r.bodyRead with
    | ok bodySize contentType jsonBody =>
      by_cases hct : strContains contentType "application/json" = true
      · cases jsonBody with
        | some j => simp [hct, JVal.hasKey]
        | none => simp [hct, JVal.hasKey]
      · cases jsonBody with
        | some j => simp [hct, JVal.hasKey]
        | none => simp [hct, JVal.hasKey]
    | err msg => exact ⟨rfl, rfl⟩
  refine ⟨?_, ?_, ?_, ?_, ?_⟩
  · unfold dispatch
    rw [hG, if_pos (Or.inl rfl)]
    exact ⟨rfl, rfl⟩
  · unfold dispatch
    rw [hP, if_pos (Or.inr (Or.inl rfl))]
    exact hpost
  · unfold dispatch
    rw [hU, if_pos (Or.inr (Or.inr (Or.inl rfl)))]
    rfl
  · unfold dispatch
    rw [hD, if_pos (Or.inr (Or.inr (Or.inr rfl)))]
    rfl
  · unfold dispatch
    rw [hX, if_neg (by decide)]

/-- Witness for C7's amended claim at the concrete unmatched path `/nope`. -/
theorem c7_catch_all_amended_witness :
    "/nope" ∉ declaredPaths
    ∧ (dispatch O0 s0 .GET "/nope" r0).status = 200
    ∧ (dispatch O0 s0 .GET "/nope" r0).body.getKey "requested_path"
        = some (.str "nope")
    ∧ dispatch O0 s0 .DELETE "/nope" r0 = ⟨200, .null⟩ := by
  have h := c7_catch_all_amended O0 s0 "/nope" r0 (by decide)
  exact ⟨by decide, h.1.1, h.1.2, h.2.2.2.1⟩

/-- C8: no request, to any route and with any outcome, mutates the
process-wide state: the route table, the static configuration and the
model handle after the request are those before it, and no partial output
is persisted anywhere (the handlers have no other store to write to). -/
theorem c8_requests_do_not_mutate_state (O : String → Except String Bytes)
    (s : AppState) (m : Method) (path : String) (r : ReqData) :
    (app_step O s m path r).2 = s
    ∧ (app_step O s m path r).2.config = s.config
    ∧ (app_step O s m path r).2.modelHandle = s.modelHandle := by
  have hs : (app_step O s m path r).2 = s := by
    unfold app_step
    repeat' split
    all_goals rfl
  exact ⟨hs, by rw [hs], by rw [hs]⟩

/-- C9: the `predict` response depends only on the first three elements of
the `data` list: two validated requests whose lists have length at least
three and agree on elements 0, 1 and 2 get the same response, whatever
their trailing elements. -/
theorem c9_predict_depends_only_on_first_three (O : String → Except String Bytes)
    (d1 d2 : List PyVal) (h1 : 3 ≤ d1.length) (h2 : 3 ≤ d2.length)
    (e0 : d1.getD 0 .vnull = d2.getD 0 .vnull)
    (e1 : d1.getD 1 .vnull = d2.getD 1 .vnull)
    (e2 : d1.getD 2 .vnull = d2.getD 2 .vnull) :
    predict O d1 = predict O d2 := by
  have n1 : ¬ d1.length < 3 := by omega
  have n2 : ¬ d2.length < 3 := by omega
  unfold predict predictBody
  rw [if_neg n1, if_neg n2, e0]

/-- Witness for C9 at two concrete lists differing in a trailing element. -/
theorem c9_predict_depends_only_on_first_three_witness :
    predict O0 [.vnum 1, .vnull, .vnull]
      = predict O0 [.vnum 1, .vnull, .vnull, .vstr "extra"] :=
  c9_predict_depends_only_on_first_three O0
    [.vnum 1, .vnull, .vnull] [.vnum 1, .vnull, .vnull, .vstr "extra"]
    (by decide) (by decide) rfl rfl rfl

end BlueprintAI
